import Mathlib

/-!
Shallow embedding of `pi_stats_async` (src/main.rs).

The program samples CPU frequency, CPU temperature and available memory
once per second and renders them on one line.  We embed:

* the `uom`-style quantity types used through `heim::units`
  (`Frequency` stored in hertz, `ThermodynamicTemperature` stored in
  kelvin, `Information` stored in bytes), with magnitudes modelled as
  exact rationals;
* the `PiStats` struct and its `Display` implementation;
* `cpu_temperature`, including the sensor-enumeration loop
  `while let Some(Ok(sensor)) = sensors.next().await` over a finite
  sequence of per-sensor results, the `HashMap` of sensors (modelled by
  its observable `insert`/`get` behaviour as an association list where
  `insert` prepends and `get` takes the first, i.e. most recent, match),
  and the selection expression
  `get(&composite).ok_or(get(&cpu)).unwrap_or(&default)` embedded via
  literal `okOr` / `unwrapOr` combinators;
* one iteration of `main`'s loop (`tick`): the fallible frequency and
  memory queries sequenced with `?`, and the text printed on success.
-/

set_option autoImplicit false

namespace PiStatsAsync

/-- `heim::units::Frequency` (uom quantity, base unit hertz). -/
structure Frequency where
  hertz : ℚ
  deriving DecidableEq

/-- `Frequency::get::<units::frequency::megahertz>()`: 1 MHz = 1,000,000 Hz. -/
def Frequency.megahertz (f : Frequency) : ℚ := f.hertz / 1000000

/-- `heim::units::ThermodynamicTemperature` (uom quantity, base unit kelvin). -/
structure ThermodynamicTemperature where
  kelvin : ℚ
  deriving DecidableEq

/-- `ThermodynamicTemperature::new::<degree_celsius>(c)`: stores c + 273.15 K. -/
def ThermodynamicTemperature.newCelsius (c : ℚ) : ThermodynamicTemperature :=
  ⟨c + 273.15⟩

/-- `get::<units::thermodynamic_temperature::degree_celsius>()`. -/
def ThermodynamicTemperature.celsius (t : ThermodynamicTemperature) : ℚ :=
  t.kelvin - 273.15

/-- `heim::units::Information` (uom quantity, base unit byte). -/
structure Information where
  bytes : ℚ
  deriving DecidableEq

/-- `Information::get::<units::information::mebibyte>()`: 1 MiB = 1,048,576 bytes. -/
def Information.mebibyte (i : Information) : ℚ := i.bytes / 1048576

/-- The `PiStats` struct of src/main.rs. -/
structure PiStats where
  cpu_frequency : Frequency
  temperature : ThermodynamicTemperature
  memory_available : Information
  deriving DecidableEq

/-- Rust's `{}` (Display) formatting of the f64 magnitudes occurring here.
All magnitudes the program's properties exercise are integer-valued, and
an integer-valued f64 Displays as its plain decimal digits; a non-integer
rational is rendered as `num/den` (never reached by the claims). -/
def fmtRat (q : ℚ) : String :=
  if q.den = 1 then toString q.num else toString q.num ++ "/" ++ toString q.den

/-- `impl fmt::Display for PiStats`:
`write!(f, "{} Mhz / {} C / {} MiB", self.cpu_frequency.get::<megahertz>(),
self.temperature.get::<degree_celsius>(), self.memory_available.get::<mebibyte>())`. -/
def PiStats.display (s : PiStats) : String :=
  fmtRat s.cpu_frequency.megahertz ++ " Mhz / " ++
    fmtRat s.temperature.celsius ++ " C / " ++
    fmtRat s.memory_available.mebibyte ++ " MiB"

/-- A temperature sensor as seen through `heim::sensors`:
`label()` is `Option<&str>`, `current()` the reading. -/
structure Sensor where
  label : Option String
  current : ThermodynamicTemperature
  deriving DecidableEq

/-- The `HashMap<String, ThermodynamicTemperature>` of `cpu_temperature`,
modelled by its observable behaviour: `insertTab` prepends and `getTab`
returns the first (most recent) binding, so a later insert of an existing
key overwrites the earlier binding, exactly as `HashMap::insert` does. -/
abbrev SensorTable : Type := List (String × ThermodynamicTemperature)

/-- `HashMap::insert` (last write wins under `getTab`). -/
def insertTab (t : SensorTable) (k : String) (v : ThermodynamicTemperature) :
    SensorTable :=
  (k, v) :: t

/-- `HashMap::get`. -/
def getTab (t : SensorTable) (k : String) : Option ThermodynamicTemperature :=
  List.lookup k t

/-- The key a sensor is stored under:
`String::from(sensor.label().unwrap_or("unknown"))`. -/
def storedKey (s : Sensor) : String := s.label.getD "unknown"

/-- The enumeration loop
`while let Some(Ok(sensor)) = sensors.next().await` of `cpu_temperature`,
over a finite stream of per-sensor results: an `Ok` sensor is inserted and
the loop continues; the first `Err` item (like the end of the stream) makes
the pattern fail, ending the loop, so nothing after it is consumed. -/
def buildTable {ε : Type} : List (Except ε Sensor) → SensorTable → SensorTable
  | [], t => t
  | Except.ok s :: rest, t => buildTable rest (insertTab t (storedKey s) s.current)
  | Except.error _ :: _, t => t

/-- `let composite_label = String::from("Composite")`. -/
def composite_label : String := "Composite"

/-- `let cpu_label = String::from("CPU")`. -/
def cpu_label : String := "CPU"

/-- `let temp_default = ThermodynamicTemperature::new::<degree_celsius>(0.0)`. -/
def temp_default : ThermodynamicTemperature :=
  ThermodynamicTemperature.newCelsius 0

/-- Rust's `Option::ok_or`: `Some(v).ok_or(e) = Ok(v)`, `None.ok_or(e) = Err(e)`. -/
def okOr {α β : Type} : Option α → β → Except β α
  | some v, _ => Except.ok v
  | none, e => Except.error e

/-- Rust's `Result::unwrap_or`: `Ok(v).unwrap_or(d) = v`, `Err(_).unwrap_or(d) = d`. -/
def unwrapOr {α β : Type} : Except β α → α → α
  | Except.ok v, _ => v
  | Except.error _, d => d

/-- The selection expression of `cpu_temperature`, verbatim:
`*table.get(&composite_label).ok_or(table.get(&cpu_label)).unwrap_or(&temp_default)`.
Note that `unwrap_or` discards the `Err` payload, which is where the
`CPU` lookup result travels. -/
def select (t : SensorTable) : ThermodynamicTemperature :=
  unwrapOr (okOr (getTab t composite_label) (getTab t cpu_label)) temp_default

/-- `async fn cpu_temperature()`, as a function of the finite sequence of
per-sensor results the `sensors::temperatures()` stream yields. -/
def cpu_temperature {ε : Type} (sensors : List (Except ε Sensor)) :
    ThermodynamicTemperature :=
  select (buildTable sensors [])

/-- One iteration of `main`'s loop, as a function of the outcomes of the
two fallible hardware queries and the sensor stream.  `cpu::frequency().await?`
and `memory::memory().await?` propagate their error with `?` (in the order
the `PiStats` literal evaluates its fields: frequency, temperature, memory);
on success the iteration prints `"\x1b[2K"`, the stats and `"\r"`, returned
here as the text printed this tick.  An `Except.error` outcome means the
error escapes `main` and nothing is printed. -/
def tick {ε δ : Type} (freq : Except ε Frequency)
    (sensors : List (Except δ Sensor)) (mem : Except ε Information) :
    Except ε String :=
  match freq with
  | Except.error e => Except.error e
  | Except.ok f =>
    let t := cpu_temperature sensors
    match mem with
    | Except.error e => Except.error e
    | Except.ok m =>
      Except.ok ("\x1b[2K" ++ PiStats.display ⟨f, t, m⟩ ++ "\r")

/-- Every item of the list is an `Ok` sensor (the stream yields no
per-sensor read error among them). -/
def allOk {ε : Type} (l : List (Except ε Sensor)) : Prop :=
  ∀ x ∈ l, ∃ s, x = Except.ok s

/-! ### Helper lemmas -/

lemma getTab_insert_self (t : SensorTable) (k : String)
    (v : ThermodynamicTemperature) : getTab (insertTab t k v) k = some v := by
  simp [getTab, insertTab, List.lookup]

lemma getTab_insert_ne (t : SensorTable) (k q : String)
    (v : ThermodynamicTemperature) (h : q ≠ k) :
    getTab (insertTab t k v) q = getTab t q := by
  have hb : (q == k) = false := beq_eq_false_iff_ne.mpr h
  simp [getTab, insertTab, List.lookup, hb]

lemma buildTable_append {ε : Type} (l₁ l₂ : List (Except ε Sensor))
    (t : SensorTable) (h : allOk l₁) :
    buildTable (l₁ ++ l₂) t = buildTable l₂ (buildTable l₁ t) := by
  induction l₁ generalizing t with
  | nil => rfl
  | cons x l₁ ih =>
    obtain ⟨s, rfl⟩ := h x (List.mem_cons_self x l₁)
    exact ih (insertTab t (storedKey s) s.current)
      (fun y hy => h y (List.mem_cons_of_mem _ hy))

lemma buildTable_error {ε : Type} (l₁ l₂ : List (Except ε Sensor)) (e : ε)
    (t : SensorTable) :
    buildTable (l₁ ++ Except.error e :: l₂) t = buildTable l₁ t := by
  induction l₁ generalizing t with
  | nil => rfl
  | cons x l₁ ih =>
    cases x with
    | ok s => exact ih (insertTab t (storedKey s) s.current)
    | error f => rfl

lemma getTab_buildTable_provenance {ε : Type} (l : List (Except ε Sensor))
    (t : SensorTable) (k : String) (v : ThermodynamicTemperature)
    (h : getTab (buildTable l t) k = some v) :
    getTab t k = some v ∨
      ∃ s, Except.ok s ∈ l ∧ storedKey s = k ∧ v = s.current := by
  induction l generalizing t with
  | nil => exact Or.inl h
  | cons x l ih =>
    cases x with
    | error e => exact Or.inl h
    | ok s =>
      rcases ih (insertTab t (storedKey s) s.current) h with h' | ⟨u, hmem, hk, hv⟩
      · by_cases hks : k = storedKey s
        · subst hks
          rw [getTab_insert_self] at h'
          exact Or.inr ⟨s, List.mem_cons_self _ _, rfl, (Option.some_inj.mp h').symm⟩
        · rw [getTab_insert_ne _ _ _ _ hks] at h'
          exact Or.inl h'
      · exact Or.inr ⟨u, List.mem_cons_of_mem _ hmem, hk, hv⟩

lemma select_composite {t : SensorTable} {x : ThermodynamicTemperature}
    (h : getTab t composite_label = some x) : select t = x := by
  simp [select, h, okOr, unwrapOr]

lemma select_no_composite {t : SensorTable}
    (h : getTab t composite_label = none) : select t = temp_default := by
  simp [select, h, okOr, unwrapOr]

lemma fmtRat_int (n : ℤ) : fmtRat (n : ℚ) = toString n := by
  simp [fmtRat]

/-! ### Claims -/

/-- Claim C1.  The spec says resolution falls back to the "CPU"-labeled
entry when "Composite" is absent.  The code does not: the `CPU` lookup
travels in the `Err` payload of `ok_or`, and `unwrap_or` discards the
`Err` payload, so a table holding only "CPU" = 25 °C (298.15 K) resolves
to the 0 °C default, not 25 °C.  This contradicts the function's own doc
comment ("we pick Composite preferentially, and CPU which we know works
on the Raspberry Pi"): a code bug. -/
theorem cpu_fallback_never_taken :
    cpu_temperature (ε := Unit) [Except.ok ⟨some "CPU", ⟨298.15⟩⟩] = temp_default ∧
    temp_default.celsius = 0 ∧
    (⟨298.15⟩ : ThermodynamicTemperature).celsius = 25 := by
  refine ⟨rfl, ?_, ?_⟩ <;>
    norm_num [temp_default, ThermodynamicTemperature.newCelsius,
      ThermodynamicTemperature.celsius]

/-- Claim C2, counterexample.  The claim says a per-item error is skipped
and a "Composite" entry after it is still inserted and still selected.
In the code the loop pattern `Some(Ok(sensor))` fails on the error item
and the loop ends: with stream [Err, Ok("Composite", 300 K)] the
"Composite" entry is never inserted and the default is returned. -/
theorem error_stops_enumeration_cex :
    getTab (buildTable (ε := Unit)
        [Except.error (), Except.ok ⟨some "Composite", ⟨300⟩⟩] []) composite_label
      = none ∧
    cpu_temperature (ε := Unit)
        [Except.error (), Except.ok ⟨some "Composite", ⟨300⟩⟩] = temp_default ∧
    temp_default ≠ (⟨300⟩ : ThermodynamicTemperature) := by
  refine ⟨rfl, rfl, ?_⟩
  norm_num [temp_default, ThermodynamicTemperature.newCelsius,
    ThermodynamicTemperature.mk.injEq]

/-- Claim C2, amended.  A per-sensor read failure does not abort
resolution, but it ends enumeration: nothing after the first failing item
is consumed or inserted, and resolution behaves exactly as if the stream
had ended just before the failing item. -/
theorem cpu_temperature_error_truncates {ε : Type}
    (l₁ l₂ : List (Except ε Sensor)) (e : ε) :
    cpu_temperature (l₁ ++ Except.error e :: l₂) = cpu_temperature l₁ := by
  unfold cpu_temperature
  rw [buildTable_error]

/-- Claim C3.  "Composite" has strict priority: whenever the table holds
"Composite" = X and "CPU" = Y with X ≠ Y, selection returns X. -/
theorem composite_priority (t : SensorTable) (x y : ThermodynamicTemperature)
    (h1 : getTab t composite_label = some x) (h2 : getTab t cpu_label = some y)
    (hxy : x ≠ y) : select t = x :=
  select_composite h1

/-- Witness for C3 at a concrete table. -/
theorem composite_priority_witness :
    getTab [("Composite", ⟨310⟩), ("CPU", ⟨300⟩)] composite_label = some ⟨310⟩ ∧
    getTab [("Composite", ⟨310⟩), ("CPU", ⟨300⟩)] cpu_label = some ⟨300⟩ ∧
    (⟨310⟩ : ThermodynamicTemperature) ≠ ⟨300⟩ ∧
    select [("Composite", ⟨310⟩), ("CPU", ⟨300⟩)] = ⟨310⟩ :=
  ⟨rfl, rfl, by decide,
    composite_priority [("Composite", ⟨310⟩), ("CPU", ⟨300⟩)] ⟨310⟩ ⟨300⟩
      rfl rfl (by decide)⟩

/-- Claim C4.  With neither "Composite" nor "CPU" in the table (the empty
table included), selection returns the default, whose Celsius value is
exactly 0. -/
theorem default_when_no_preferred_label (t : SensorTable)
    (h1 : getTab t composite_label = none) (h2 : getTab t cpu_label = none) :
    select t = temp_default ∧ (select t).celsius = 0 := by
  refine ⟨select_no_composite h1, ?_⟩
  rw [select_no_composite h1]
  norm_num [temp_default, ThermodynamicTemperature.newCelsius,
    ThermodynamicTemperature.celsius]

/-- Witness for C4 at the empty table. -/
theorem default_when_no_preferred_label_witness :
    getTab ([] : SensorTable) composite_label = none ∧
    getTab ([] : SensorTable) cpu_label = none ∧
    select ([] : SensorTable) = temp_default ∧
    (select ([] : SensorTable)).celsius = 0 :=
  ⟨rfl, rfl, (default_when_no_preferred_label [] rfl rfl).1,
    (default_when_no_preferred_label [] rfl rfl).2⟩

/-- Claim C5.  Temperature resolution is total: `cpu_temperature` is a
total function of the finite per-sensor result sequence (it terminates by
structural recursion, has no error outcome, and `unwrap_or` precludes a
panic), and its value is always either the 0 °C default or the reading of
an `Ok` sensor of the sequence labeled "Composite". -/
theorem cpu_temperature_total {ε : Type} (l : List (Except ε Sensor)) :
    cpu_temperature l = temp_default ∨
      ∃ s : Sensor, Except.ok s ∈ l ∧ s.label = some composite_label ∧
        cpu_temperature l = s.current := by
  unfold cpu_temperature
  cases h : getTab (buildTable l []) composite_label with
  | none => exact Or.inl (select_no_composite h)
  | some v =>
    rcases getTab_buildTable_provenance l [] _ _ h with h' | ⟨s, hmem, hk, hv⟩
    · simp [getTab] at h'
    · refine Or.inr ⟨s, hmem, ?_, ?_⟩
      · cases hl : s.label with
        | none =>
          rw [storedKey, hl] at hk
          exact absurd hk (by decide)
        | some lbl =>
          rw [storedKey, hl] at hk
          simpa using hk
      · rw [select_composite h, hv]

/-- Claim C6.  Unit conversion is exact scaling (1 MHz = 1,000,000 Hz and
1 MiB = 1,048,576 bytes, no rounding), the rendered line is
"<frequency> Mhz / <temperature> C / <memory> MiB", and in particular
1,800,000,000 Hz renders as "1800" and 3,145,728 bytes as "3". -/
theorem display_unit_conversion :
    (∀ f : Frequency, f.megahertz * 1000000 = f.hertz) ∧
    (∀ i : Information, i.mebibyte * 1048576 = i.bytes) ∧
    PiStats.display ⟨⟨1800000000⟩, ThermodynamicTemperature.newCelsius 42, ⟨3145728⟩⟩ =
      "1800 Mhz / 42 C / 3 MiB" := by
  refine ⟨?_, ?_, ?_⟩
  · intro f
    rw [Frequency.megahertz]
    field_simp
  · intro i
    rw [Information.mebibyte]
    field_simp
  · have hf : (⟨1800000000⟩ : Frequency).megahertz = ((1800 : ℤ) : ℚ) := by
      norm_num [Frequency.megahertz]
    have ht : (ThermodynamicTemperature.newCelsius 42).celsius = ((42 : ℤ) : ℚ) := by
      norm_num [ThermodynamicTemperature.newCelsius, ThermodynamicTemperature.celsius]
    have hm : (⟨3145728⟩ : Information).mebibyte = ((3 : ℤ) : ℚ) := by
      norm_num [Information.mebibyte]
    show fmtRat (⟨1800000000⟩ : Frequency).megahertz ++ " Mhz / " ++
        fmtRat (ThermodynamicTemperature.newCelsius 42).celsius ++ " C / " ++
        fmtRat (⟨3145728⟩ : Information).mebibyte ++ " MiB" = _
    rw [hf, ht, hm, fmtRat_int, fmtRat_int, fmtRat_int]
    rfl

/-- Claim C7.  A sensor with no label is stored under the literal key
"unknown"; "unknown" matches neither priority label, and the selected
value is always either the default or the table's "Composite" binding, so
an "unknown" entry is never selected over an explicitly labeled one. -/
theorem unlabeled_stored_under_unknown :
    (∀ (ε : Type) (rest : List (Except ε Sensor)) (v : ThermodynamicTemperature)
        (t : SensorTable),
      buildTable (Except.ok ⟨none, v⟩ :: rest) t =
        buildTable rest (insertTab t "unknown" v)) ∧
    ("unknown" ≠ composite_label ∧ "unknown" ≠ cpu_label) ∧
    (∀ t : SensorTable,
      select t = temp_default ∨ getTab t composite_label = some (select t)) := by
  refine ⟨fun ε rest v t => rfl, ⟨by decide, by decide⟩, fun t => ?_⟩
  cases h : getTab t composite_label with
  | none => exact Or.inl (select_no_composite h)
  | some v => exact Or.inr (by rw [select_composite h])

/-- Claim C8, counterexample.  The claim says a failed query surfaces an
error identifying which metric failed.  The code propagates the underlying
error unchanged: a tick whose frequency query fails with "boom" and a tick
whose memory query fails with "boom" produce the very same error value, so
the error cannot identify the failing metric. -/
theorem tick_error_untagged_cex :
    (tick (Except.error "boom") ([] : List (Except Unit Sensor))
        (Except.ok ⟨3145728⟩) : Except String String) =
      tick (Except.ok ⟨1800000000⟩) ([] : List (Except Unit Sensor))
        (Except.error "boom") ∧
    (tick (Except.error "boom") ([] : List (Except Unit Sensor))
        (Except.ok ⟨3145728⟩) : Except String String) =
      Except.error "boom" :=
  ⟨rfl, rfl⟩

/-- Claim C8, amended.  When the frequency or memory query fails on a
tick, the underlying error itself is propagated unchanged out of `main`
(no wrapper naming the failing metric is added), the error is surfaced to
the caller rather than swallowed, and no line is rendered for that tick
(the tick's outcome carries no printed text). -/
theorem tick_propagates_untagged_error {ε δ : Type} (e : ε)
    (ss : List (Except δ Sensor)) (mem : Except ε Information) (f : Frequency) :
    tick (Except.error e) ss mem = Except.error e ∧
    tick (Except.ok f) ss (Except.error e) = Except.error e :=
  ⟨rfl, rfl⟩

/-- Claim C9.  Table construction is last-write-wins: when two `Ok`
entries share a stored label and enumeration reaches both (no error item
before the later one), the later entry's reading is what the table — and
hence selection — sees for that label; duplicates never cause an error. -/
theorem table_last_write_wins {ε : Type} (pre mid : List (Except ε Sensor))
    (s₁ s₂ : Sensor) (hpre : allOk pre) (hmid : allOk mid)
    (hlbl : storedKey s₁ = storedKey s₂) :
    getTab (buildTable (pre ++ (Except.ok s₁ :: (mid ++ [Except.ok s₂]))) [])
        (storedKey s₂) = some s₂.current := by
  rw [buildTable_append pre (Except.ok s₁ :: (mid ++ [Except.ok s₂])) [] hpre]
  show getTab (buildTable (mid ++ [Except.ok s₂])
      (insertTab (buildTable pre []) (storedKey s₁) s₁.current)) (storedKey s₂)
    = some s₂.current
  rw [buildTable_append mid [Except.ok s₂]
    (insertTab (buildTable pre []) (storedKey s₁) s₁.current) hmid]
  exact getTab_insert_self _ _ _

/-- Witness for C9 at a concrete stream with a duplicated "CPU" label. -/
theorem table_last_write_wins_witness :
    allOk ([] : List (Except Unit Sensor)) ∧
    storedKey ⟨some "CPU", ⟨300⟩⟩ = storedKey ⟨some "CPU", ⟨305⟩⟩ ∧
    getTab (buildTable (([] : List (Except Unit Sensor)) ++
          (Except.ok ⟨some "CPU", ⟨300⟩⟩ :: (([] : List (Except Unit Sensor)) ++
            [Except.ok ⟨some "CPU", ⟨305⟩⟩]))) [])
        (storedKey ⟨some "CPU", ⟨305⟩⟩) = some (⟨305⟩ : ThermodynamicTemperature) :=
  ⟨by simp [allOk], rfl,
    table_last_write_wins [] [] ⟨some "CPU", ⟨300⟩⟩ ⟨some "CPU", ⟨305⟩⟩
      (by simp [allOk]) (by simp [allOk]) rfl⟩

/-- Claim C10.  Tick atomicity on memory failure: when the frequency query
succeeds but the memory query fails, the error propagates before any
output is produced — the tick's outcome is the error and carries no
printed text, even though frequency and temperature were already obtained. -/
theorem tick_memory_failure_atomic {ε δ : Type} (f : Frequency)
    (ss : List (Except δ Sensor)) (e : ε) :
    tick (Except.ok f) ss (Except.error e) = Except.error e :=
  rfl

end PiStatsAsync
